import Mathlib

/-!
Verification of the YPOS pub/sub core (`src/server/libs/PubSub/PubSubAdapter.js`).

The adapter is embedded shallowly: the mutable message object becomes a value
that is functionally updated, the redis clients become trace events, the
`PubSubHelper` registry store (whose source is not part of the repository)
is modelled from the specification as a record of three finite maps, and the
asynchronous message handlers become pure functions from an inbound message to
a handler result.  `JSON.stringify` / `createFromString` round-tripping is
modelled by placing the message value itself on the wire.
-/

/-- The message header.  `sentAt` is `none` until `publish` stamps it. -/
structure Header where
  messageId : String
  sentAt : Option Nat
deriving Repr, DecidableEq

/-- The wire envelope: header, channel, recipient type and payload. -/
structure Message where
  header : Header
  channel : String
  recipient : String
  payload : String
deriving Repr, DecidableEq

/-- Modelled from the spec: `Message.js` is not in the repository.  §4.1:
`validationErrors()` "checks required fields are present and well-typed"; §8
names "missing header.messageId" and §3 "non-empty channel" as the checks. -/
def Message.getValidationErrors (m : Message) : List String :=
  (if m.header.messageId = "" then ["header.messageId is missing"] else []) ++
  (if m.channel = "" then ["channel is empty"] else [])

/-- Modelled from the spec: `tryValidate` succeeds exactly when there are no
validation errors (§4.1: returns false rather than throwing). -/
def Message.tryValidate (m : Message) : Bool :=
  m.getValidationErrors.isEmpty

/-- The publisher/subscriber options object; the JS check
`!option.subscriberType` treats the empty string and an absent field alike,
so absence is modelled as `""`. -/
structure Opt where
  subscriberType : String
deriving Repr, DecidableEq

/-- Modelled from the spec: the shared registry store behind `PubSubHelper`
(§3): subscriber types per channel, subscribers per (channel, type), and the
in-flight message-id set per (channel, type). -/
structure Registry where
  subscriberTypes : String → List String
  subscribers : String → String → List String
  inFlight : String → String → List String

/-- Modelled from the spec: `listSubscriberTypes(channel)` (§4.2). -/
def Registry.getSubscriberTypes (r : Registry) (channel : String) : List String :=
  r.subscriberTypes channel

/-- Modelled from the spec: `listSubscribers(channel, type)`, "used only to
test non-emptiness" (§4.2). -/
def Registry.getChannelSubscribersForType (r : Registry) (channel t : String) : List String :=
  r.subscribers channel t

/-- Modelled from the spec: `reserveMessageForType` adds the id to the
in-flight set for (channel, type); set semantics absorb duplicates (§4.2). -/
def Registry.addMessageIdToTypeSet (r : Registry) (c t id : String) : Registry :=
  { r with inFlight := fun c2 t2 =>
      if c2 = c ∧ t2 = t then
        (if id ∈ r.inFlight c t then r.inFlight c t else r.inFlight c t ++ [id])
      else r.inFlight c2 t2 }

/-- Modelled from the spec: `claimMessageForType` "atomically removes
`messageId` from the in-flight set; returns true iff the removal actually
happened (ID was present)" (§4.2).  Atomicity is the single step of this
function in the sequential model. -/
def Registry.removeMessageIdFromTypeSet (r : Registry) (c t id : String) : Bool × Registry :=
  (decide (id ∈ r.inFlight c t),
   { r with inFlight := fun c2 t2 =>
       if c2 = c ∧ t2 = t then (r.inFlight c t).filter (fun x => decide (x ≠ id))
       else r.inFlight c2 t2 })

/-- Modelled from the spec: `registerSubscriber(channel, type)` is idempotent
registration of the current process (`sub`) under the given type (§4.2). -/
def Registry.registerChannelSubscribers (r : Registry) (c t sub : String) : Registry :=
  { r with
    subscriberTypes := fun c2 =>
      if c2 = c then
        (if t ∈ r.subscriberTypes c then r.subscriberTypes c else r.subscriberTypes c ++ [t])
      else r.subscriberTypes c2,
    subscribers := fun c2 t2 =>
      if c2 = c ∧ t2 = t then
        (if sub ∈ r.subscribers c t then r.subscribers c t else r.subscribers c t ++ [sub])
      else r.subscribers c2 t2 }

/-- Observable actions of the adapter, in program order.  Client events carry
the JS variable name of the redis client (`client`, `pub`, `sub`). -/
inductive Event where
  | createClient (who : String)
  | quitClient (who : String)
  | reserve (channel t messageId : String)
  | wireWrite (channel : String) (payload : Message)
  | subscribeCh (channel : String)
  | unsubscribeCh (channel : String)
  | registerSub (channel t : String)
deriving Repr, DecidableEq

/-- `message.channel = channel` — the stamp both publish entry points apply
first "for tracking purposes". -/
def stamp (channel : String) (m : Message) : Message :=
  { m with channel := channel }

/-- The wire copy produced for subscriber type `t`:
`message.header.sentAt = new Date(); message.recipient = type`. -/
def mkWire (m : Message) (now : Nat) (t : String) : Message :=
  { m with header := { m.header with sentAt := some now }, recipient := t }

/-- The `for (let type of subscriberTypes)` loop shared by `publish` and
`publishAndWaitForResponse`: for each type with at least one subscriber,
reserve the message id, stamp `sentAt`/`recipient`, and write to the wire. -/
def publishFanout (channel : String) (now : Nat) :
    Registry → Message → List String → Registry × List Event × Message
  | r, m, [] => (r, [], m)
  | r, m, t :: ts =>
    if 0 < (r.getChannelSubscribersForType channel t).length then
      let r1 := r.addMessageIdToTypeSet channel t m.header.messageId
      let m1 := mkWire m now t
      let rest := publishFanout channel now r1 m1 ts
      (rest.1,
       Event.reserve channel t m.header.messageId :: Event.wireWrite channel m1 :: rest.2.1,
       rest.2.2)
    else
      publishFanout channel now r m ts

/-- The text of the error thrown when `tryValidate` fails. -/
def validationFailureText (m : Message) : String :=
  "[Message] did not pass the validation checks: [" ++
    String.intercalate "," m.getValidationErrors ++ "]"

/-- Result of one call to `publish`. -/
structure PublishResult where
  outcome : Except String Message
  registry : Registry
  events : List Event

/-- `publish(channel, option, message)`: stamp the channel, create the client,
validate (throwing skips the final `client.quit()`), fan out, quit. -/
def publish (channel : String) (option : Opt) (message : Message) (r : Registry)
    (now : Nat) : PublishResult :=
  let m0 := stamp channel message
  if m0.tryValidate then
    let res := publishFanout channel now r m0 (r.getSubscriberTypes channel)
    { outcome := Except.ok res.2.2
      registry := res.1
      events := Event.createClient "client" :: res.2.1 ++ [Event.quitClient "client"] }
  else
    { outcome := Except.error (validationFailureText m0)
      registry := r
      events := [Event.createClient "client"] }

/-- Result of the synchronous part of `publishAndWaitForResponse` (everything
up to the installation of the `message` handler). -/
structure SetupResult where
  outcome : Except String Unit
  registry : Registry
  events : List Event

/-- The synchronous phase of `publishAndWaitForResponse(channel,
responseChannel, option, message)`: stamp, create `pub`, validate, fan out,
`pub.quit()`, only then check `option.subscriberType`, then open `sub`,
subscribe to the response channel and register the current process (`self`). -/
def publishAndWaitSetup (channel responseChannel : String) (option : Opt)
    (message : Message) (self : String) (r : Registry) (now : Nat) : SetupResult :=
  let m0 := stamp channel message
  if m0.tryValidate then
    let res := publishFanout channel now r m0 (r.getSubscriberTypes channel)
    if option.subscriberType = "" then
      { outcome := Except.error "[subscriberType] was not set on the option"
        registry := res.1
        events := Event.createClient "pub" :: res.2.1 ++ [Event.quitClient "pub"] }
    else
      { outcome := Except.ok ()
        registry := res.1.registerChannelSubscribers responseChannel option.subscriberType self
        events := Event.createClient "pub" :: res.2.1 ++
          [Event.quitClient "pub", Event.createClient "sub",
           Event.subscribeCh responseChannel,
           Event.registerSub responseChannel option.subscriberType] }
  else
    { outcome := Except.error (validationFailureText m0)
      registry := r
      events := [Event.createClient "pub"] }

/-- Result of the `subscribe` message handler for one inbound message:
possibly a `callback(null, message)` invocation. -/
structure HandlerResult where
  registry : Registry
  events : List Event
  callbackCall : Option (Option String × Message)

/-- The `sub.on('message', ...)` handler of `subscribe`: filter on channel and
recipient, claim the message id, invoke the callback only on a won claim. -/
def handleSubscribeMessage (channel : String) (option : Opt) (r : Registry)
    (message : Message) : HandlerResult :=
  if message.channel = channel ∧ message.recipient = option.subscriberType then
    let res := r.removeMessageIdFromTypeSet message.channel message.recipient
      message.header.messageId
    if res.1 then
      { registry := res.2, events := [], callbackCall := some (none, message) }
    else
      { registry := res.2, events := [], callbackCall := none }
  else
    { registry := r, events := [], callbackCall := none }

/-- Result of the `publishAndWaitForResponse` message handler for one inbound
message: possibly a resolution of the pending promise. -/
structure ResponseHandlerResult where
  registry : Registry
  events : List Event
  resolution : Option Message

/-- The `sub.on('message', ...)` handler of `publishAndWaitForResponse`: the
messageId comparison with the request is commented out in the source, so the
filter is only channel and recipient; on a won claim it unsubscribes, quits
and resolves. -/
def handleResponseMessage (channel : String) (option : Opt) (r : Registry)
    (response : Message) : ResponseHandlerResult :=
  if response.channel = channel ∧ response.recipient = option.subscriberType then
    let res := r.removeMessageIdFromTypeSet response.channel response.recipient
      response.header.messageId
    if res.1 then
      { registry := res.2,
        events := [Event.unsubscribeCh channel, Event.quitClient "sub"],
        resolution := some response }
    else
      { registry := res.2, events := [], resolution := none }
  else
    { registry := r, events := [], resolution := none }

/-- Observable actions of the `processExit` handler. -/
inductive ExitEvent where
  | unregisterAll
  | logUnregisterError
  | logExitInfo (exitCode : Int)
  | exitWithCode (exitCode : Int)
deriving Repr, DecidableEq

/-- The `internalEmitter.on(processExit, ...)` handler: try to unregister the
process from all channels (`unregisterFails` models the outcome of the store
call, whose source is not in the repository), log the failure if any, log the
exit line, then `process.exit(exitCode)`. -/
def processExitHandler (exitCode : Int) (unregisterFails : Bool) : List ExitEvent :=
  (ExitEvent.unregisterAll ::
    (if unregisterFails then [ExitEvent.logUnregisterError] else [])) ++
  [ExitEvent.logExitInfo exitCode, ExitEvent.exitWithCode exitCode]

/-- The wire writes of a trace, in order. -/
def writesOf (evs : List Event) : List Message :=
  evs.filterMap fun e => match e with
    | Event.wireWrite _ m => some m
    | _ => none

/-- The in-flight reservations of a trace, in order. -/
def reservesOf (evs : List Event) : List (String × String × String) :=
  evs.filterMap fun e => match e with
    | Event.reserve c t id => some (c, t, id)
    | _ => none

/-- The events of a trace that concern subscriber type `t` on `channel`: its
reservation and any wire write addressed to it. -/
def concernsType (channel t : String) : Event → Bool
  | Event.reserve c t2 _ => decide (c = channel ∧ t2 = t)
  | Event.wireWrite c msg => decide (c = channel ∧ msg.recipient = t)
  | _ => false

/-- A registry with no channels registered. -/
def emptyRegistry : Registry :=
  { subscriberTypes := fun _ => [], subscribers := fun _ _ => [], inFlight := fun _ _ => [] }

/-- A registry with two subscriber types on channel `orders`, each with one
subscriber, and nothing in flight. -/
def sampleRegistry : Registry :=
  { subscriberTypes := fun c => if c = "orders" then ["worker", "audit"] else []
    subscribers := fun c t =>
      if c = "orders" ∧ (t = "worker" ∨ t = "audit") then ["s1"] else []
    inFlight := fun _ _ => [] }

/-- A registry holding one in-flight response id for type `svcA` on `resp`. -/
def respRegistry : Registry :=
  { subscriberTypes := fun c => if c = "resp" then ["svcA"] else []
    subscribers := fun c t => if c = "resp" ∧ t = "svcA" then ["p1"] else []
    inFlight := fun c t => if c = "resp" ∧ t = "svcA" then ["m2"] else [] }

/-- A message that passes validation once a channel is stamped. -/
def validMsg : Message :=
  { header := { messageId := "m1", sentAt := none }, channel := "", recipient := "",
    payload := "pay" }

/-- A message with a missing `header.messageId`: it fails validation. -/
def invalidMsg : Message :=
  { header := { messageId := "", sentAt := none }, channel := "", recipient := "",
    payload := "pay" }

/-- The request message of the request/response scenario. -/
def requestMsg : Message :=
  { header := { messageId := "m1", sentAt := none }, channel := "req", recipient := "",
    payload := "q" }

/-- A response carrying a messageId different from the request. -/
def responseMsg : Message :=
  { header := { messageId := "m2", sentAt := none }, channel := "resp",
    recipient := "svcA", payload := "a" }

/-- Options naming subscriber type `worker`. -/
def optW : Opt := { subscriberType := "worker" }

/-- Options naming subscriber type `svcA`. -/
def optA : Opt := { subscriberType := "svcA" }

/-- Options with the mandatory subscriber type absent. -/
def optNone : Opt := { subscriberType := "" }

/-- The expected fan-out trace when every type in `ts` has a subscriber: one
reservation followed by one wire write per type, in registry order. -/
def fanoutTrace (channel id : String) (m : Message) (now : Nat) : List String → List Event
  | [] => []
  | t :: ts =>
    Event.reserve channel t id :: Event.wireWrite channel (mkWire m now t) ::
      fanoutTrace channel id m now ts

theorem mkWire_mkWire (m : Message) (now : Nat) (t t2 : String) :
    mkWire (mkWire m now t) now t2 = mkWire m now t2 := rfl

theorem mkWire_messageId (m : Message) (now : Nat) (t : String) :
    (mkWire m now t).header.messageId = m.header.messageId := rfl

theorem mkWire_recipient (m : Message) (now : Nat) (t : String) :
    (mkWire m now t).recipient = t := rfl

theorem fanoutTrace_mkWire (channel id : String) (m : Message) (now : Nat) (t0 : String)
    (ts : List String) :
    fanoutTrace channel id (mkWire m now t0) now ts = fanoutTrace channel id m now ts := by
  induction ts with
  | nil => rfl
  | cons t ts ih => simp [fanoutTrace, ih, mkWire_mkWire]

theorem publishFanout_events_all (channel : String) (now : Nat) (r : Registry) (m : Message)
    (ts : List String)
    (hsub : ∀ t ∈ ts, 0 < (r.getChannelSubscribersForType channel t).length) :
    (publishFanout channel now r m ts).2.1 = fanoutTrace channel m.header.messageId m now ts := by
  induction ts generalizing r m with
  | nil => rfl
  | cons t ts ih =>
    have h := hsub t (List.mem_cons_self _ _)
    simp only [publishFanout, if_pos h, fanoutTrace]
    rw [ih (r.addMessageIdToTypeSet channel t m.header.messageId) (mkWire m now t)
      (fun t2 ht2 => hsub t2 (List.mem_cons_of_mem _ ht2))]
    rw [mkWire_messageId, fanoutTrace_mkWire]

theorem writesOf_cons_reserve (c t id : String) (evs : List Event) :
    writesOf (Event.reserve c t id :: evs) = writesOf evs := rfl

theorem writesOf_cons_write (c : String) (m : Message) (evs : List Event) :
    writesOf (Event.wireWrite c m :: evs) = m :: writesOf evs := rfl

theorem writesOf_cons_create (who : String) (evs : List Event) :
    writesOf (Event.createClient who :: evs) = writesOf evs := rfl

theorem writesOf_append (evs1 evs2 : List Event) :
    writesOf (evs1 ++ evs2) = writesOf evs1 ++ writesOf evs2 := by
  simp [writesOf, List.filterMap_append]

theorem writesOf_fanoutTrace (channel id : String) (m : Message) (now : Nat)
    (ts : List String) :
    writesOf (fanoutTrace channel id m now ts) = ts.map (mkWire m now) := by
  induction ts with
  | nil => rfl
  | cons t ts ih =>
    simp [fanoutTrace, writesOf_cons_reserve, writesOf_cons_write, ih]

theorem filter_fanoutTrace_not_mem (channel id : String) (m : Message) (now : Nat)
    (ts : List String) (t : String) (hnot : t ∉ ts) :
    (fanoutTrace channel id m now ts).filter (concernsType channel t) = [] := by
  induction ts with
  | nil => rfl
  | cons t0 ts ih =>
    have h1 : ¬ t0 = t := fun h => hnot (h ▸ List.mem_cons_self _ _)
    have h2 : t ∉ ts := fun h => hnot (List.mem_cons_of_mem _ h)
    simp [fanoutTrace, List.filter_cons, concernsType, mkWire_recipient, h1, ih h2]

theorem filter_fanoutTrace_of_mem (channel id : String) (m : Message) (now : Nat)
    (ts : List String) (t : String) (hmem : t ∈ ts) (hnodup : ts.Nodup) :
    (fanoutTrace channel id m now ts).filter (concernsType channel t) =
      [Event.reserve channel t id, Event.wireWrite channel (mkWire m now t)] := by
  induction ts with
  | nil => cases hmem
  | cons t0 ts ih =>
    rcases List.mem_cons.mp hmem with h | h
    · subst h
      have hnot : t ∉ ts := (List.nodup_cons.mp hnodup).1
      simp [fanoutTrace, List.filter_cons, concernsType, mkWire_recipient,
        filter_fanoutTrace_not_mem channel id m now ts t hnot]
    · have h1 : ¬ t0 = t := by
        intro he
        exact absurd (he ▸ h) (List.nodup_cons.mp hnodup).1
      simp [fanoutTrace, List.filter_cons, concernsType, mkWire_recipient, h1,
        ih h (List.nodup_cons.mp hnodup).2]

theorem filter_concernsType_wrapper (channel t who1 who2 : String) (evs : List Event) :
    (Event.createClient who1 :: evs ++ [Event.quitClient who2]).filter (concernsType channel t) =
      evs.filter (concernsType channel t) := by
  simp [List.filter_cons, List.filter_append, concernsType]

theorem addMessageIdToTypeSet_mono (r : Registry) (c t id x c2 t2 : String)
    (hx : x ∈ r.inFlight c2 t2) : x ∈ (r.addMessageIdToTypeSet c t id).inFlight c2 t2 := by
  show x ∈ (if c2 = c ∧ t2 = t then
      (if id ∈ r.inFlight c t then r.inFlight c t else r.inFlight c t ++ [id])
    else r.inFlight c2 t2)
  by_cases h : c2 = c ∧ t2 = t
  · obtain ⟨hc, ht⟩ := h
    subst hc; subst ht
    rw [if_pos ⟨rfl, rfl⟩]
    by_cases hmem : id ∈ r.inFlight c2 t2
    · rw [if_pos hmem]; exact hx
    · rw [if_neg hmem]; exact List.mem_append_left _ hx
  · rw [if_neg h]; exact hx

theorem addMessageIdToTypeSet_self_mem (r : Registry) (c t id : String) :
    id ∈ (r.addMessageIdToTypeSet c t id).inFlight c t := by
  show id ∈ (if c = c ∧ t = t then
      (if id ∈ r.inFlight c t then r.inFlight c t else r.inFlight c t ++ [id])
    else r.inFlight c t)
  rw [if_pos ⟨rfl, rfl⟩]
  by_cases hmem : id ∈ r.inFlight c t
  · rw [if_pos hmem]; exact hmem
  · rw [if_neg hmem]
    exact List.mem_append_right _ (List.mem_singleton.mpr rfl)

theorem publishFanout_inFlight_mono (channel : String) (now : Nat) (r : Registry)
    (m : Message) (ts : List String) (x c2 t2 : String) (hx : x ∈ r.inFlight c2 t2) :
    x ∈ (publishFanout channel now r m ts).1.inFlight c2 t2 := by
  induction ts generalizing r m with
  | nil => exact hx
  | cons t ts ih =>
    by_cases h : 0 < (r.getChannelSubscribersForType channel t).length
    · simp only [publishFanout, if_pos h]
      exact ih _ _ (addMessageIdToTypeSet_mono r channel t m.header.messageId x c2 t2 hx)
    · simp only [publishFanout, if_neg h]
      exact ih r m hx

theorem publishFanout_inFlight_mem (channel : String) (now : Nat) (r : Registry)
    (m : Message) (ts : List String)
    (hsub : ∀ t ∈ ts, 0 < (r.getChannelSubscribersForType channel t).length) :
    ∀ t ∈ ts, m.header.messageId ∈ (publishFanout channel now r m ts).1.inFlight channel t := by
  induction ts generalizing r m with
  | nil => intro t ht; cases ht
  | cons t0 ts ih =>
    intro t ht
    have h0 := hsub t0 (List.mem_cons_self _ _)
    simp only [publishFanout, if_pos h0]
    rcases List.mem_cons.mp ht with h | h
    · subst h
      exact publishFanout_inFlight_mono channel now _ _ ts _ channel t
        (addMessageIdToTypeSet_self_mem r channel t m.header.messageId)
    · have := ih (r.addMessageIdToTypeSet channel t0 m.header.messageId) (mkWire m now t0)
        (fun t2 ht2 => hsub t2 (List.mem_cons_of_mem _ ht2)) t h
      rw [mkWire_messageId] at this
      exact this

/-- C2: claiming a message (`claimMessageForType`, realized by
`removeMessageIdFromTypeSet`) returns true iff the id was present at the
moment of the atomic removal; an immediately repeated claim of the same id
with no intervening reservation returns false, so at most one claimant ever
receives true per reservation. -/
theorem claimMessageForType_single_winner (r : Registry) (c t id : String) :
    ((r.removeMessageIdFromTypeSet c t id).1 = true ↔ id ∈ r.inFlight c t) ∧
    ((r.removeMessageIdFromTypeSet c t id).2.removeMessageIdFromTypeSet c t id).1 = false := by
  constructor
  · simp [Registry.removeMessageIdFromTypeSet]
  · simp [Registry.removeMessageIdFromTypeSet, List.mem_filter]

/-- C3: the `subscribe` handler invokes the callback, with null error and the
inbound message, exactly when the message's channel equals the subscribed
channel, its recipient equals `option.subscriberType`, and the claim of its
messageId succeeds (the id was in flight); otherwise the callback is not
invoked and the message is dropped. -/
theorem subscribe_callback_iff (channel : String) (option : Opt) (r : Registry)
    (message : Message) :
    (handleSubscribeMessage channel option r message).callbackCall =
      (if message.channel = channel ∧ message.recipient = option.subscriberType ∧
          message.header.messageId ∈ r.inFlight message.channel message.recipient
       then some ((none : Option String), message) else none) := by
  by_cases h1 : message.channel = channel ∧ message.recipient = option.subscriberType
  · obtain ⟨hc, hr⟩ := h1
    by_cases h2 : message.header.messageId ∈ r.inFlight channel option.subscriberType
    · have h2a : message.header.messageId ∈ r.inFlight message.channel message.recipient := by
        rw [hc, hr]; exact h2
      simp [handleSubscribeMessage, Registry.removeMessageIdFromTypeSet, hc, hr, h2, h2a]
    · have h2a : message.header.messageId ∉ r.inFlight message.channel message.recipient := by
        rw [hc, hr]; exact h2
      simp [handleSubscribeMessage, Registry.removeMessageIdFromTypeSet, hc, hr, h2, h2a]
  · have h3 : ¬ (message.channel = channel ∧ message.recipient = option.subscriberType ∧
        message.header.messageId ∈ r.inFlight message.channel message.recipient) := by
      tauto
    simp [handleSubscribeMessage, h1, h3]

/-- C6: the `publishAndWaitForResponse` handler resolves with the inbound
response exactly when the response's channel equals the response channel, its
recipient equals `option.subscriberType`, and the claim of its messageId
succeeds; on resolution it unsubscribes and closes the response connection,
and otherwise it emits nothing and keeps waiting. -/
theorem response_accept_characterization (responseChannel : String) (option : Opt)
    (r : Registry) (response : Message) :
    ((handleResponseMessage responseChannel option r response).resolution =
      (if response.channel = responseChannel ∧ response.recipient = option.subscriberType ∧
          response.header.messageId ∈ r.inFlight response.channel response.recipient
       then some response else none)) ∧
    ((handleResponseMessage responseChannel option r response).events =
      (if response.channel = responseChannel ∧ response.recipient = option.subscriberType ∧
          response.header.messageId ∈ r.inFlight response.channel response.recipient
       then [Event.unsubscribeCh responseChannel, Event.quitClient "sub"] else [])) := by
  by_cases h1 : response.channel = responseChannel ∧ response.recipient = option.subscriberType
  · obtain ⟨hc, hr⟩ := h1
    by_cases h2 : response.header.messageId ∈ r.inFlight responseChannel option.subscriberType
    · have h2a : response.header.messageId ∈ r.inFlight response.channel response.recipient := by
        rw [hc, hr]; exact h2
      constructor <;>
        simp [handleResponseMessage, Registry.removeMessageIdFromTypeSet, hc, hr, h2, h2a]
    · have h2a : response.header.messageId ∉ r.inFlight response.channel response.recipient := by
        rw [hc, hr]; exact h2
      constructor <;>
        simp [handleResponseMessage, Registry.removeMessageIdFromTypeSet, hc, hr, h2, h2a]
  · have h3 : ¬ (response.channel = responseChannel ∧ response.recipient = option.subscriberType ∧
        response.header.messageId ∈ r.inFlight response.channel response.recipient) := by
      tauto
    constructor <;> simp [handleResponseMessage, h1, h3]

/-- C9: for every exit code and every outcome of the unregister-all store
call, the `processExit` handler first attempts the unregistration, logs the
failure exactly when the call fails, and still ends by exiting the process
with the given exit code. -/
theorem processExit_always_terminates (exitCode : Int) (b : Bool) :
    (∃ pre, processExitHandler exitCode b = pre ++ [ExitEvent.exitWithCode exitCode]) ∧
    (processExitHandler exitCode b).head? = some ExitEvent.unregisterAll ∧
    (ExitEvent.logUnregisterError ∈ processExitHandler exitCode b ↔ b = true) := by
  cases b
  · exact ⟨⟨[ExitEvent.unregisterAll, ExitEvent.logExitInfo exitCode], rfl⟩, rfl,
      by simp [processExitHandler]⟩
  · exact ⟨⟨[ExitEvent.unregisterAll, ExitEvent.logUnregisterError,
        ExitEvent.logExitInfo exitCode], rfl⟩, rfl, by simp [processExitHandler]⟩

/-- C10: the `publishAndWaitForResponse` handler performs no messageId
correlation with the published request: a response whose messageId differs
from the request's still resolves the call, provided its channel and
recipient match and its claim succeeds. -/
theorem response_not_correlated (responseChannel : String) (option : Opt) (r : Registry)
    (request response : Message)
    (hid : response.header.messageId ≠ request.header.messageId)
    (hch : response.channel = responseChannel)
    (hrec : response.recipient = option.subscriberType)
    (hin : response.header.messageId ∈ r.inFlight response.channel response.recipient) :
    (handleResponseMessage responseChannel option r response).resolution = some response := by
  have hin2 : response.header.messageId ∈ r.inFlight responseChannel option.subscriberType := by
    rw [← hch, ← hrec]; exact hin
  simp [handleResponseMessage, Registry.removeMessageIdFromTypeSet, hch, hrec, hin2]

/-- Witness for C10 at concrete inputs: the request has id `m1`, the accepted
response has id `m2`. -/
theorem response_not_correlated_witness :
    (handleResponseMessage "resp" optA respRegistry responseMsg).resolution = some responseMsg :=
  response_not_correlated "resp" optA respRegistry requestMsg responseMsg
    (by decide) (by decide) (by decide) (by decide)

theorem map_recipient_map_mkWire (m : Message) (now : Nat) (ts : List String) :
    (ts.map (mkWire m now)).map Message.recipient = ts := by
  induction ts with
  | nil => rfl
  | cons t ts ih => simp [ih, mkWire_recipient]

theorem publishFanout_filter_unsubscribed (channel : String) (now : Nat) (r : Registry)
    (m : Message) (ts : List String) (t : String)
    (hempty : r.getChannelSubscribersForType channel t = []) :
    (publishFanout channel now r m ts).2.1.filter (concernsType channel t) = [] := by
  induction ts generalizing r m with
  | nil => rfl
  | cons t0 ts ih =>
    by_cases h : 0 < (r.getChannelSubscribersForType channel t0).length
    · have ht0 : ¬ t0 = t := by
        intro he
        rw [he, hempty] at h
        exact absurd h (by simp)
      have hrest := ih (r.addMessageIdToTypeSet channel t0 m.header.messageId)
        (mkWire m now t0) hempty
      simp only [publishFanout, if_pos h, List.filter_cons]
      simp [concernsType, mkWire_recipient, ht0, hrest]
    · simp only [publishFanout, if_neg h]
      exact ih r m hempty

theorem publishFanout_inFlight_unsubscribed (channel : String) (now : Nat) (r : Registry)
    (m : Message) (ts : List String) (t : String)
    (hempty : r.getChannelSubscribersForType channel t = []) :
    (publishFanout channel now r m ts).1.inFlight channel t = r.inFlight channel t := by
  induction ts generalizing r m with
  | nil => rfl
  | cons t0 ts ih =>
    by_cases h : 0 < (r.getChannelSubscribersForType channel t0).length
    · have ht0 : ¬ t0 = t := by
        intro he
        rw [he, hempty] at h
        exact absurd h (by simp)
      simp only [publishFanout, if_pos h]
      rw [ih (r.addMessageIdToTypeSet channel t0 m.header.messageId) (mkWire m now t0) hempty]
      show (if channel = channel ∧ t = t0 then _ else r.inFlight channel t) = r.inFlight channel t
      rw [if_neg]
      rintro ⟨-, ht⟩
      exact ht0 ht.symm
    · simp only [publishFanout, if_neg h]
      exact ih r m hempty

theorem publishFanout_events_shape (channel : String) (now : Nat) (r : Registry)
    (m : Message) (ts : List String) :
    ∀ e ∈ (publishFanout channel now r m ts).2.1,
      (∃ t idm, e = Event.reserve channel t idm) ∨ ∃ msg, e = Event.wireWrite channel msg := by
  induction ts generalizing r m with
  | nil => intro e he; cases he
  | cons t0 ts ih =>
    intro e he
    by_cases h : 0 < (r.getChannelSubscribersForType channel t0).length
    · simp only [publishFanout, if_pos h, List.mem_cons] at he
      rcases he with rfl | rfl | he
      · exact Or.inl ⟨t0, m.header.messageId, rfl⟩
      · exact Or.inr ⟨mkWire m now t0, rfl⟩
      · exact ih _ _ e he
    · simp only [publishFanout, if_neg h] at he
      exact ih r m e he

theorem writesOf_wrapper (who1 who2 : String) (evs : List Event) :
    writesOf (Event.createClient who1 :: evs ++ [Event.quitClient who2]) = writesOf evs := by
  simp [writesOf, List.filterMap_cons, List.filterMap_append]

/-- C1: when the registry lists N >= 1 subscriber types for the channel and
each of those types has at least one subscriber, `publish` hands exactly N
wire copies to the transport, one per registered type with `recipient` set to
that type (all distinct since the registry types are), and for each type the
message id is reserved in that (channel, type) in-flight set — the
reservation event preceding the wire write for that type, and the id present
in the resulting in-flight set. -/
theorem publish_exact_fanout (channel : String) (option : Opt) (message : Message)
    (r : Registry) (now : Nat)
    (hv : (stamp channel message).tryValidate = true)
    (hnodup : (r.getSubscriberTypes channel).Nodup)
    (hne : r.getSubscriberTypes channel ≠ [])
    (hsub : ∀ t ∈ r.getSubscriberTypes channel,
      0 < (r.getChannelSubscribersForType channel t).length) :
    writesOf (publish channel option message r now).events
        = (r.getSubscriberTypes channel).map (mkWire (stamp channel message) now) ∧
    (writesOf (publish channel option message r now).events).map Message.recipient
        = r.getSubscriberTypes channel ∧
    0 < (writesOf (publish channel option message r now).events).length ∧
    (∀ t ∈ r.getSubscriberTypes channel,
      (publish channel option message r now).events.filter (concernsType channel t)
        = [Event.reserve channel t (stamp channel message).header.messageId,
           Event.wireWrite channel (mkWire (stamp channel message) now t)]) ∧
    (∀ t ∈ r.getSubscriberTypes channel,
      (stamp channel message).header.messageId ∈
        (publish channel option message r now).registry.inFlight channel t) := by
  have hev : (publish channel option message r now).events =
      Event.createClient "client" ::
        (publishFanout channel now r (stamp channel message)
          (r.getSubscriberTypes channel)).2.1 ++ [Event.quitClient "client"] := by
    simp [publish, hv]
  have hreg : (publish channel option message r now).registry =
      (publishFanout channel now r (stamp channel message)
        (r.getSubscriberTypes channel)).1 := by
    simp [publish, hv]
  have htr := publishFanout_events_all channel now r (stamp channel message)
    (r.getSubscriberTypes channel) hsub
  have h1 : writesOf (publish channel option message r now).events
      = (r.getSubscriberTypes channel).map (mkWire (stamp channel message) now) := by
    rw [hev, writesOf_wrapper, htr, writesOf_fanoutTrace]
  refine ⟨h1, ?_, ?_, ?_, ?_⟩
  · rw [h1, map_recipient_map_mkWire]
  · rw [h1, List.length_map]
    exact List.length_pos.mpr hne
  · intro t ht
    rw [hev, filter_concernsType_wrapper, htr]
    exact filter_fanoutTrace_of_mem channel (stamp channel message).header.messageId
      (stamp channel message) now (r.getSubscriberTypes channel) t ht hnodup
  · intro t ht
    rw [hreg]
    exact publishFanout_inFlight_mem channel now r (stamp channel message)
      (r.getSubscriberTypes channel) hsub t ht

/-- Witness for C1: publishing to `orders` with registered types `worker` and
`audit`, each with one subscriber, yields exactly the two expected wire
copies with distinct recipients, each preceded by its reservation. -/
theorem publish_exact_fanout_witness :
    writesOf (publish "orders" optW validMsg sampleRegistry 5).events
        = (sampleRegistry.getSubscriberTypes "orders").map (mkWire (stamp "orders" validMsg) 5) ∧
    (writesOf (publish "orders" optW validMsg sampleRegistry 5).events).map Message.recipient
        = sampleRegistry.getSubscriberTypes "orders" ∧
    0 < (writesOf (publish "orders" optW validMsg sampleRegistry 5).events).length ∧
    (∀ t ∈ sampleRegistry.getSubscriberTypes "orders",
      (publish "orders" optW validMsg sampleRegistry 5).events.filter (concernsType "orders" t)
        = [Event.reserve "orders" t (stamp "orders" validMsg).header.messageId,
           Event.wireWrite "orders" (mkWire (stamp "orders" validMsg) 5 t)]) ∧
    (∀ t ∈ sampleRegistry.getSubscriberTypes "orders",
      (stamp "orders" validMsg).header.messageId ∈
        (publish "orders" optW validMsg sampleRegistry 5).registry.inFlight "orders" t) :=
  publish_exact_fanout "orders" optW validMsg sampleRegistry 5
    (by decide) (by decide) (by decide) (by decide)

/-- C5: when the channel-stamped message fails validation, `publish` fails
with the error text listing the specific violations, leaves the registry
untouched, and performs no wire write and no in-flight reservation. -/
theorem publish_validation_failure (channel : String) (option : Opt) (message : Message)
    (r : Registry) (now : Nat)
    (hv : (stamp channel message).tryValidate = false) :
    (publish channel option message r now).outcome
        = Except.error (validationFailureText (stamp channel message)) ∧
    (publish channel option message r now).registry = r ∧
    writesOf (publish channel option message r now).events = [] ∧
    reservesOf (publish channel option message r now).events = [] := by
  refine ⟨?_, ?_, ?_, ?_⟩ <;> simp [publish, hv, writesOf, reservesOf]

/-- Witness for C5: a message without a `header.messageId` fails validation
and `publish` reaches neither the transport nor the registry. -/
theorem publish_validation_failure_witness :
    (publish "orders" optW invalidMsg sampleRegistry 5).outcome
        = Except.error (validationFailureText (stamp "orders" invalidMsg)) ∧
    (publish "orders" optW invalidMsg sampleRegistry 5).registry = sampleRegistry ∧
    writesOf (publish "orders" optW invalidMsg sampleRegistry 5).events = [] ∧
    reservesOf (publish "orders" optW invalidMsg sampleRegistry 5).events = [] :=
  publish_validation_failure "orders" optW invalidMsg sampleRegistry 5 (by decide)

/-- C7 counterexample: a channel with zero registered subscriber types does
not guarantee that `publish` "returns without error" — an invalid message
still makes the call fail, so the claim as stated is false. -/
theorem publish_no_subscribers_counterexample :
    emptyRegistry.getSubscriberTypes "orders" = [] ∧
    (publish "orders" optW invalidMsg emptyRegistry 0).outcome
      = Except.error
          "[Message] did not pass the validation checks: [header.messageId is missing]" := by
  exact ⟨rfl, rfl⟩

/-- C7 amended: provided the stamped message passes validation, `publish`
returns without error; every type with an empty subscriber list gets no wire
write and no in-flight reservation; and with zero registered types the call
performs no transport write at all and leaves the registry untouched. -/
theorem publish_skips_unsubscribed (channel : String) (option : Opt) (message : Message)
    (r : Registry) (now : Nat)
    (hv : (stamp channel message).tryValidate = true) :
    (∃ m2, (publish channel option message r now).outcome = Except.ok m2) ∧
    (∀ t, r.getChannelSubscribersForType channel t = [] →
      (publish channel option message r now).events.filter (concernsType channel t) = [] ∧
      (publish channel option message r now).registry.inFlight channel t
        = r.inFlight channel t) ∧
    (r.getSubscriberTypes channel = [] →
      (publish channel option message r now).events
        = [Event.createClient "client", Event.quitClient "client"] ∧
      (publish channel option message r now).registry = r) := by
  have hev : (publish channel option message r now).events =
      Event.createClient "client" ::
        (publishFanout channel now r (stamp channel message)
          (r.getSubscriberTypes channel)).2.1 ++ [Event.quitClient "client"] := by
    simp [publish, hv]
  have hreg : (publish channel option message r now).registry =
      (publishFanout channel now r (stamp channel message)
        (r.getSubscriberTypes channel)).1 := by
    simp [publish, hv]
  refine ⟨⟨(publishFanout channel now r (stamp channel message)
    (r.getSubscriberTypes channel)).2.2, by simp [publish, hv]⟩, ?_, ?_⟩
  · intro t hempty
    constructor
    · rw [hev, filter_concernsType_wrapper]
      exact publishFanout_filter_unsubscribed channel now r (stamp channel message)
        (r.getSubscriberTypes channel) t hempty
    · rw [hreg]
      exact publishFanout_inFlight_unsubscribed channel now r (stamp channel message)
        (r.getSubscriberTypes channel) t hempty
  · intro h0
    constructor
    · rw [hev, h0]
      rfl
    · rw [hreg, h0]
      rfl

/-- Witness for C7 amended: a valid message on a channel with no registered
types produces no writes and no reservations, and the call succeeds. -/
theorem publish_skips_unsubscribed_witness :
    (∃ m2, (publish "orders" optW validMsg emptyRegistry 5).outcome = Except.ok m2) ∧
    (publish "orders" optW validMsg emptyRegistry 5).events
      = [Event.createClient "client", Event.quitClient "client"] ∧
    (publish "orders" optW validMsg emptyRegistry 5).registry.inFlight "orders" "worker"
      = [] := by
  obtain ⟨ho, hall, hzero⟩ :=
    publish_skips_unsubscribed "orders" optW validMsg emptyRegistry 5 (by decide)
  exact ⟨ho, (hzero rfl).1, (hall "worker" rfl).2⟩

/-- C8 counterexample: on the validation-failure path both publish entry
points open their publishing connection and never close it, so the claim
that the connection is closed on every execution path is false. -/
theorem publish_close_counterexample :
    (stamp "orders" invalidMsg).tryValidate = false ∧
    Event.createClient "client" ∈ (publish "orders" optW invalidMsg emptyRegistry 0).events ∧
    Event.quitClient "client" ∉ (publish "orders" optW invalidMsg emptyRegistry 0).events ∧
    Event.createClient "pub"
      ∈ (publishAndWaitSetup "orders" "resp" optW invalidMsg "p1" emptyRegistry 0).events ∧
    Event.quitClient "pub"
      ∉ (publishAndWaitSetup "orders" "resp" optW invalidMsg "p1" emptyRegistry 0).events := by
  decide

/-- C8 amended: on every execution path where validation succeeds, the
publishing connection is closed — `publish` ends with its `client.quit()` and
`publishAndWaitForResponse` performs `pub.quit()` whether or not the
subscriber-type option is present; only the validation-failure path leaks
the connection. -/
theorem publish_closes_on_valid (channel responseChannel : String) (option : Opt)
    (message : Message) (self : String) (r : Registry) (now : Nat)
    (hv : (stamp channel message).tryValidate = true) :
    (publish channel option message r now).events.getLast?
      = some (Event.quitClient "client") ∧
    Event.quitClient "pub"
      ∈ (publishAndWaitSetup channel responseChannel option message self r now).events := by
  constructor
  · have hev : (publish channel option message r now).events =
        (Event.createClient "client" ::
          (publishFanout channel now r (stamp channel message)
            (r.getSubscriberTypes channel)).2.1) ++ [Event.quitClient "client"] := by
      simp [publish, hv]
    rw [hev]
    exact List.getLast?_concat _
  · by_cases hopt : option.subscriberType = ""
    · simp [publishAndWaitSetup, hv, hopt]
    · simp [publishAndWaitSetup, hv, hopt]

/-- Witness for C8 amended at a concrete valid publish. -/
theorem publish_closes_on_valid_witness :
    (publish "orders" optW validMsg sampleRegistry 5).events.getLast?
      = some (Event.quitClient "client") ∧
    Event.quitClient "pub"
      ∈ (publishAndWaitSetup "orders" "resp" optW validMsg "p1" sampleRegistry 5).events :=
  publish_closes_on_valid "orders" "resp" optW validMsg "p1" sampleRegistry 5 (by decide)

/-- C4 counterexample: with `option.subscriberType` absent, the configuration
error is indeed reported, but only after the publish phase — the publishing
connection was used and a wire copy of the message was written, so "before
any network activity" is false. -/
theorem configError_counterexample :
    (publishAndWaitSetup "orders" "resp" optNone validMsg "p1" sampleRegistry 5).outcome
      = Except.error "[subscriberType] was not set on the option" ∧
    Event.createClient "pub"
      ∈ (publishAndWaitSetup "orders" "resp" optNone validMsg "p1" sampleRegistry 5).events ∧
    Event.wireWrite "orders" (mkWire (stamp "orders" validMsg) 5 "worker")
      ∈ (publishAndWaitSetup "orders" "resp" optNone validMsg "p1" sampleRegistry 5).events := by
  refine ⟨rfl, by decide, by decide⟩

/-- C4 amended: when the stamped message passes validation and
`option.subscriberType` is absent, `publishAndWaitForResponse` reports the
configuration error only after the publish phase (publish connection opened,
fan-out performed, publish connection closed), and before any of the response
subscription: no second connection is created, no channel is subscribed and
no subscriber registration happens. -/
theorem configError_after_publish_phase (channel responseChannel : String) (option : Opt)
    (message : Message) (self : String) (r : Registry) (now : Nat)
    (hv : (stamp channel message).tryValidate = true)
    (hopt : option.subscriberType = "") :
    (publishAndWaitSetup channel responseChannel option message self r now).outcome
      = Except.error "[subscriberType] was not set on the option" ∧
    (publishAndWaitSetup channel responseChannel option message self r now).events
      = Event.createClient "pub" ::
          (publishFanout channel now r (stamp channel message)
            (r.getSubscriberTypes channel)).2.1 ++ [Event.quitClient "pub"] ∧
    Event.createClient "sub"
      ∉ (publishAndWaitSetup channel responseChannel option message self r now).events ∧
    (∀ c, Event.subscribeCh c
      ∉ (publishAndWaitSetup channel responseChannel option message self r now).events) ∧
    (∀ c t2, Event.registerSub c t2
      ∉ (publishAndWaitSetup channel responseChannel option message self r now).events) := by
  have hev : (publishAndWaitSetup channel responseChannel option message self r now).events
      = Event.createClient "pub" ::
          (publishFanout channel now r (stamp channel message)
            (r.getSubscriberTypes channel)).2.1 ++ [Event.quitClient "pub"] := by
    simp [publishAndWaitSetup, hv, hopt]
  have hshape := publishFanout_events_shape channel now r (stamp channel message)
    (r.getSubscriberTypes channel)
  have hgen : ∀ e ∈ (publishAndWaitSetup channel responseChannel option message self r now).events,
      e = Event.createClient "pub" ∨ e = Event.quitClient "pub" ∨
      (∃ t2 idm, e = Event.reserve channel t2 idm) ∨ ∃ msg, e = Event.wireWrite channel msg := by
    rw [hev]
    intro e he
    rcases List.mem_cons.mp he with rfl | he
    · exact Or.inl rfl
    rcases List.mem_append.mp he with he | he
    · rcases hshape e he with h | h
      · exact Or.inr (Or.inr (Or.inl h))
      · exact Or.inr (Or.inr (Or.inr h))
    · rw [List.mem_singleton.mp he]
      exact Or.inr (Or.inl rfl)
  refine ⟨by simp [publishAndWaitSetup, hv, hopt], hev, ?_, ?_, ?_⟩
  · intro hmem
    rcases hgen _ hmem with h | h | ⟨t2, idm, h⟩ | ⟨msg, h⟩ <;> simp at h
  · intro c hmem
    rcases hgen _ hmem with h | h | ⟨t2, idm, h⟩ | ⟨msg, h⟩ <;> simp at h
  · intro c t3 hmem
    rcases hgen _ hmem with h | h | ⟨t2, idm, h⟩ | ⟨msg, h⟩ <;> simp at h

/-- Witness for C4 amended at a concrete call with the subscriber type
absent. -/
theorem configError_after_publish_phase_witness :
    (publishAndWaitSetup "orders" "resp" optNone validMsg "p1" sampleRegistry 5).outcome
      = Except.error "[subscriberType] was not set on the option" ∧
    (publishAndWaitSetup "orders" "resp" optNone validMsg "p1" sampleRegistry 5).events
      = Event.createClient "pub" ::
          (publishFanout "orders" 5 sampleRegistry (stamp "orders" validMsg)
            (sampleRegistry.getSubscriberTypes "orders")).2.1 ++ [Event.quitClient "pub"] ∧
    Event.createClient "sub"
      ∉ (publishAndWaitSetup "orders" "resp" optNone validMsg "p1" sampleRegistry 5).events ∧
    (∀ c, Event.subscribeCh c
      ∉ (publishAndWaitSetup "orders" "resp" optNone validMsg "p1" sampleRegistry 5).events) ∧
    (∀ c t2, Event.registerSub c t2
      ∉ (publishAndWaitSetup "orders" "resp" optNone validMsg "p1" sampleRegistry 5).events) :=
  configError_after_publish_phase "orders" "resp" optNone validMsg "p1" sampleRegistry 5
    (by decide) (by decide)
